import Mathlib

/-!
Verification of the WebGPU out-of-process actor (components/webgpu/lib.rs):
a shallow embedding of the dispatch loop (`WGPU::run`), the swapchain
presentation pipeline, and the external image provider
(`WGPUExternalImages::lock`/`unlock`).

Modelling conventions:
* Machine integers are `Nat`; every place the source produces a `u32` value
  applies `% 2^32` explicitly (`u32`).  Image dimensions are stored as `i32`
  in the source; the embedding uses `Nat` for the nonnegative range and
  mirrors the `as u32` casts with `% 2^32`.
* Backend (`wgpu_core::hub::Global`) calls are events; calls whose results
  the actor consumes are oracles packaged in `Backend`.  `HashMap` is an
  association list with `insert`-replaces semantics.
* Fallible code (a Rust `unwrap` that can panic) returns `Option`; `none`
  is a panic of the actor thread.
-/

namespace WebGPUActor

/-- `wgt::COPY_BYTES_PER_ROW_ALIGNMENT` (256 in wgpu-types). -/
def COPY_BYTES_PER_ROW_ALIGNMENT : Nat := 256

/-- Truncation to `u32`, mirroring Rust `as u32` casts / `u32` wrapping. -/
def u32 (n : Nat) : Nat := n % 4294967296

/-- `webrender_api::ImageDescriptor`: the actor reads `size.width` and
`size.height`; the remaining descriptor fields are an uninterpreted token. -/
structure ImageDescriptor where
  width : Nat
  height : Nat
  rest : Nat
deriving DecidableEq

/-- `wgt::BufferDescriptor`: the actor-built descriptor for the staging
buffer carries an explicit `size`; label/usage/mapped_at_creation are an
uninterpreted token `rest` (the swapchain arm passes `rest = 0`). -/
structure BufferDescriptor where
  size : Nat
  rest : Nat
deriving DecidableEq

/-- `PresentationData` (one entry of the shared `wgpu_image_map`).
`size : Size2D<i32>` is embedded as the two fields `width`/`height`. -/
structure PresentationData where
  device_id : Nat
  queue_id : Nat
  data : List Nat
  width : Nat
  height : Nat
  buffer_id : Nat
  buffer_stride : Nat
  image_desc : ImageDescriptor
  image_data : Nat
deriving DecidableEq

/-- Association-list lookup (`HashMap::get`). -/
def alLookup {α : Type} (m : List (Nat × α)) (k : Nat) : Option α :=
  match m with
  | [] => none
  | p :: rest => if p.1 = k then some p.2 else alLookup rest k

/-- Association-list key removal (`HashMap::remove`, dropping the value). -/
def alErase {α : Type} (m : List (Nat × α)) (k : Nat) : List (Nat × α) :=
  match m with
  | [] => []
  | p :: rest => if p.1 = k then alErase rest k else p :: alErase rest k

/-- Association-list insert-or-replace (`HashMap::insert`). -/
def alInsert {α : Type} (m : List (Nat × α)) (k : Nat) (v : α) :
    List (Nat × α) :=
  (k, v) :: alErase m k

/-- `WebGPUResponse`: the success payloads of the two reply-bearing
requests.  The `channel : WebGPU` of the adapter reply is the token of the
`IpcSender<WebGPURequest>` it wraps. -/
inductive WebGPUResponse where
  | RequestAdapter (adapter_name : String) (adapter_id : Nat) (channel : Nat)
  | RequestDevice (device_id : Nat) (queue_id : Nat) (descriptor : Nat)
deriving DecidableEq

/-- Calls the actor issues against the GPU backend
(`wgpu_core::hub::Global`), one constructor per entry point used by
`WGPU::run`; `drop_global` is the release of the backend global state in
the `Exit` arm. -/
inductive BackendCall where
  | command_encoder_finish (command_encoder_id : Nat)
  | command_encoder_copy_buffer_to_buffer (command_encoder_id source_id
      source_offset destination_id destination_offset size : Nat)
  | device_create_bind_group (device_id bind_group_id
      bind_group_layout_id : Nat) (bindings : List Nat)
  | device_create_bind_group_layout (device_id bind_group_layout_id : Nat)
      (bindings : List Nat)
  | device_create_buffer (device_id buffer_id : Nat)
      (descriptor : BufferDescriptor)
  | device_create_command_encoder (device_id command_encoder_id : Nat)
  | device_create_compute_pipeline (device_id compute_pipeline_id
      pipeline_layout_id program_id : Nat) (entry_point : String)
  | device_create_pipeline_layout (device_id pipeline_layout_id : Nat)
      (bind_group_layouts : List Nat)
  | device_create_render_pipeline (device_id render_pipeline_id
      pipeline_layout_id : Nat) (descriptor_rest : Nat)
  | device_create_sampler (device_id sampler_id descriptor : Nat)
  | device_create_shader_module (device_id program_id : Nat)
      (program : List Nat)
  | device_create_texture (device_id texture_id descriptor : Nat)
  | texture_create_view (texture_id texture_view_id descriptor : Nat)
  | buffer_destroy (buffer_id : Nat)
  | texture_destroy (texture_id : Nat)
  | pick_adapter (options : Nat)
  | adapter_get_info (adapter_id : Nat)
  | adapter_request_device (adapter_id descriptor device_id : Nat)
  | command_encoder_run_compute_pass (command_encoder_id : Nat)
      (pass_data : List Nat)
  | command_encoder_run_render_pass (command_encoder_id : Nat)
      (pass_data : List Nat)
  | queue_submit (queue_id : Nat) (command_buffers : List Nat)
  | command_encoder_copy_texture_to_buffer
      (encoder_id texture_id buffer_id bytes_per_row width height : Nat)
  | buffer_map_async (buffer_id size : Nat)
  | device_poll (device_id : Nat)
  | buffer_get_mapped_range (buffer_id : Nat)
  | buffer_unmap (buffer_id : Nat)
  | device_set_buffer_sub_data (device_id buffer_id : Nat)
      (array_buffer : List Nat)
  | drop_global
deriving DecidableEq

/-- A webrender `Transaction` content (`add_image` / `update_image` with
`DirtyRect::All` / `delete_image`). -/
inductive WrTransaction where
  | add_image (key : Nat) (descriptor : ImageDescriptor) (data : Nat)
  | update_image (key : Nat) (descriptor : ImageDescriptor) (data : Nat)
  | delete_image (key : Nat)
deriving DecidableEq

instance {ε α : Type} [DecidableEq ε] [DecidableEq α] :
    DecidableEq (Except ε α) := fun x y =>
  match x, y with
  | .error a, .error b =>
      if h : a = b then .isTrue (by rw [h])
      else .isFalse (fun hc => h (by injection hc))
  | .error _, .ok _ => .isFalse (fun hc => by injection hc)
  | .ok _, .error _ => .isFalse (fun hc => by injection hc)
  | .ok a, .ok b =>
      if h : a = b then .isTrue (by rw [h])
      else .isFalse (fun hc => h (by injection hc))

/-- Observable effects of one dispatch-loop iteration, in program order. -/
inductive Event where
  /-- `script_sender.send(WebGPUMsg::Exit)` — upstream shutdown. -/
  | scriptMsgExit
  /-- a send on a reply handle (`IpcSender<WebGPUResponseResult>`). -/
  | reply (sender : Nat) (r : Except String WebGPUResponse)
  /-- `sender.send(())` in the `Exit` arm — termination acknowledgement. -/
  | exitAck (sender : Nat)
  /-- `sender.send(image_key)` in the `CreateSwapChain` arm. -/
  | sendImageKey (sender : Nat) (key : Nat)
  /-- `sender.send(id)` in the `CreateContext` arm. -/
  | sendExternalImageId (sender : Nat) (id : Nat)
  /-- `webrender_api.send_transaction(document, txn)`. -/
  | txn (t : WrTransaction)
  /-- a call into the GPU backend. -/
  | backend (c : BackendCall)
deriving DecidableEq

/-- `WebGPURequest`: the closed request union of the actor, one
constructor per source variant.  Backend identifiers and uninterpreted
payloads are `Nat` tokens; reply handles are `Nat` sender tokens. -/
inductive WebGPURequest where
  | CommandEncoderFinish (command_encoder_id : Nat)
  | CopyBufferToBuffer (command_encoder_id source_id source_offset
      destination_id destination_offset size : Nat)
  | CreateBindGroup (device_id bind_group_id bind_group_layout_id : Nat)
      (bindings : List Nat)
  | CreateBindGroupLayout (device_id bind_group_layout_id : Nat)
      (bindings : List Nat)
  | CreateBuffer (device_id buffer_id : Nat) (descriptor : BufferDescriptor)
  | CreateCommandEncoder (device_id command_encoder_id : Nat)
  | CreateComputePipeline (device_id compute_pipeline_id pipeline_layout_id
      program_id : Nat) (entry_point : String)
  | CreateContext (sender : Nat)
  | CreatePipelineLayout (device_id pipeline_layout_id : Nat)
      (bind_group_layouts : List Nat)
  | CreateRenderPipeline (device_id render_pipeline_id
      pipeline_layout_id : Nat) (descriptor_rest : Nat)
  | CreateSampler (device_id sampler_id descriptor : Nat)
  | CreateShaderModule (device_id program_id : Nat) (program : List Nat)
  | CreateSwapChain (device_id buffer_id external_id sender : Nat)
      (image_desc : ImageDescriptor) (image_data : Nat)
  | CreateTexture (device_id texture_id descriptor : Nat)
  | CreateTextureView (texture_id texture_view_id descriptor : Nat)
  | DestroyBuffer (buffer_id : Nat)
  | DestroySwapChain (external_id image_key : Nat)
  | DestroyTexture (texture_id : Nat)
  | Exit (sender : Nat)
  | RequestAdapter (sender options : Nat) (ids : List Nat)
  | RequestDevice (sender adapter_id descriptor device_id : Nat)
  | RunComputePass (command_encoder_id : Nat) (pass_data : List Nat)
  | RunRenderPass (command_encoder_id : Nat) (pass_data : List Nat)
  | Submit (queue_id : Nat) (command_buffers : List Nat)
  | SwapChainPresent (external_id texture_id encoder_id image_key : Nat)
  | UnmapBuffer (device_id buffer_id : Nat) (array_buffer : List Nat)
deriving DecidableEq

/-- Whether the dispatch loop keeps draining the channel after an arm
(`.cont` = fall through / `continue`; `.stop` = `return`). -/
inductive LoopCtl where
  | cont
  | stop
deriving DecidableEq

/-- Mutable state of the `WGPU` actor relevant to its behaviour:
`sender` is the token of `self.sender` (the clone handed out in adapter
replies), `adapters`/`devices` are the append-only bookkeeping lists, and
`wgpu_image_map` is the shared presentation table. -/
structure WGPU where
  sender : Nat
  adapters : List Nat
  devices : List Nat
  wgpu_image_map : List (Nat × PresentationData)
deriving DecidableEq

/-- Oracles for the external collaborators whose results the actor
consumes: `pick_adapter` and `adapter_get_info`/`adapter_request_device`
on the backend, the byte contents of a mapped staging buffer
(`buffer_get_mapped_range` + `slice::from_raw_parts`), the webrender
`generate_image_key`, and the external image registry `next_id`. -/
structure Backend where
  pick_adapter : Nat → List Nat → Option Nat
  adapter_get_info : Nat → String
  adapter_request_device : Nat → Nat → Nat → Nat
  mapped_byte : Nat → Nat → Nat
  generate_image_key : Nat
  next_external_image_id : Nat

/-- `buffer_stride` as computed by the `CreateSwapChain` arm:
`((width * 4) as u32 | (COPY_BYTES_PER_ROW_ALIGNMENT - 1)) + 1`,
a `u32` value. -/
def buffer_stride (width : Nat) : Nat :=
  u32 (Nat.lor (u32 (width * 4)) (COPY_BYTES_PER_ROW_ALIGNMENT - 1) + 1)

/-- The byte length of the staging region allocated by `CreateSwapChain`:
`(buffer_stride * height as u32) as usize` (u32 multiplication). -/
def stagingLen (width height : Nat) : Nat :=
  u32 (buffer_stride width * u32 height)

/-- One iteration of `WGPU::run`: process a single dequeued request.
`none` is a panic of the actor thread (a failed `unwrap`); otherwise the
updated state, the emitted effects in order, and whether the loop
continues. -/
def WGPU.step (b : Backend) (st : WGPU) :
    WebGPURequest → Option (WGPU × List Event × LoopCtl)
  | .CommandEncoderFinish command_encoder_id =>
      some (st, [.backend (.command_encoder_finish command_encoder_id)],
        .cont)
  | .CopyBufferToBuffer ce src so dst dof sz =>
      some (st,
        [.backend (.command_encoder_copy_buffer_to_buffer ce src so dst dof sz)],
        .cont)
  | .CreateBindGroup device_id bind_group_id layout_id bindings =>
      some (st,
        [.backend (.device_create_bind_group device_id bind_group_id
          layout_id bindings)], .cont)
  | .CreateBindGroupLayout device_id layout_id bindings =>
      some (st,
        [.backend (.device_create_bind_group_layout device_id layout_id
          bindings)], .cont)
  | .CreateBuffer device_id buffer_id descriptor =>
      some (st,
        [.backend (.device_create_buffer device_id buffer_id descriptor)],
        .cont)
  | .CreateCommandEncoder device_id command_encoder_id =>
      some (st,
        [.backend (.device_create_command_encoder device_id
          command_encoder_id)], .cont)
  | .CreateComputePipeline device_id pipeline_id layout_id program_id ep =>
      some (st,
        [.backend (.device_create_compute_pipeline device_id pipeline_id
          layout_id program_id ep)], .cont)
  | .CreateContext sender =>
      some (st, [.sendExternalImageId sender b.next_external_image_id],
        .cont)
  | .CreatePipelineLayout device_id layout_id bgls =>
      some (st,
        [.backend (.device_create_pipeline_layout device_id layout_id bgls)],
        .cont)
  | .CreateRenderPipeline device_id pipeline_id layout_id rest =>
      some (st,
        [.backend (.device_create_render_pipeline device_id pipeline_id
          layout_id rest)], .cont)
  | .CreateSampler device_id sampler_id descriptor =>
      some (st,
        [.backend (.device_create_sampler device_id sampler_id descriptor)],
        .cont)
  | .CreateShaderModule device_id program_id program =>
      some (st,
        [.backend (.device_create_shader_module device_id program_id
          program)], .cont)
  | .CreateSwapChain device_id buffer_id external_id sender image_desc
      image_data =>
      let height := image_desc.height
      let width := image_desc.width
      let stride := buffer_stride width
      let pd : PresentationData :=
        ⟨device_id, device_id, List.replicate (stagingLen width height) 255,
          width, height, buffer_id, stride, image_desc, image_data⟩
      let buffer_size := stagingLen width height
      let image_key := b.generate_image_key
      some
        (⟨st.sender, st.adapters, st.devices,
            alInsert st.wgpu_image_map external_id pd⟩,
          [.backend (.device_create_buffer device_id buffer_id
              ⟨buffer_size, 0⟩),
            .sendImageKey sender image_key,
            .txn (.add_image image_key image_desc image_data)], .cont)
  | .CreateTexture device_id texture_id descriptor =>
      some (st,
        [.backend (.device_create_texture device_id texture_id descriptor)],
        .cont)
  | .CreateTextureView texture_id view_id descriptor =>
      some (st,
        [.backend (.texture_create_view texture_id view_id descriptor)],
        .cont)
  | .DestroyBuffer buffer_id =>
      some (st, [.backend (.buffer_destroy buffer_id)], .cont)
  | .DestroySwapChain external_id image_key =>
      -- `self.wgpu_image_map.lock().unwrap().remove(&external_id).unwrap()`
      match alLookup st.wgpu_image_map external_id with
      | none => none
      | some data =>
          some
            (⟨st.sender, st.adapters, st.devices,
                alErase st.wgpu_image_map external_id⟩,
              [.backend (.buffer_destroy data.buffer_id),
                .txn (.delete_image image_key)], .cont)
  | .DestroyTexture texture_id =>
      some (st, [.backend (.texture_destroy texture_id)], .cont)
  | .Exit sender =>
      some (st, [.scriptMsgExit, .backend .drop_global, .exitAck sender],
        .stop)
  | .RequestAdapter sender options ids =>
      match b.pick_adapter options ids with
      | none =>
          -- error reply, then `return;`, ending the dispatch loop
          some (st,
            [.backend (.pick_adapter options),
              .reply sender (.error "Failed to get webgpu adapter")], .stop)
      | some adapter_id =>
          some
            (⟨st.sender, st.adapters ++ [adapter_id], st.devices,
                st.wgpu_image_map⟩,
              [.backend (.pick_adapter options),
                .backend (.adapter_get_info adapter_id),
                .reply sender (.ok (.RequestAdapter
                  (b.adapter_get_info adapter_id) adapter_id st.sender))],
              .cont)
  | .RequestDevice sender adapter_id descriptor device_id =>
      let id := b.adapter_request_device adapter_id descriptor device_id
      some
        (⟨st.sender, st.adapters, st.devices ++ [id], st.wgpu_image_map⟩,
          [.backend (.adapter_request_device adapter_id descriptor
              device_id),
            .reply sender (.ok (.RequestDevice id id descriptor))], .cont)
  | .RunComputePass command_encoder_id pass_data =>
      some (st,
        [.backend (.command_encoder_run_compute_pass command_encoder_id
          pass_data)], .cont)
  | .RunRenderPass command_encoder_id pass_data =>
      some (st,
        [.backend (.command_encoder_run_render_pass command_encoder_id
          pass_data)], .cont)
  | .Submit queue_id command_buffers =>
      some (st, [.backend (.queue_submit queue_id command_buffers)], .cont)
  | .SwapChainPresent external_id texture_id encoder_id image_key =>
      match alLookup st.wgpu_image_map external_id with
      | none => some (st, [], .cont)  -- warn + `continue`
      | some pd =>
          let buffer_size := u32 (u32 pd.height * pd.buffer_stride)
          let evs : List Event :=
            [.backend (.device_create_command_encoder pd.device_id
                encoder_id),
              .backend (.command_encoder_copy_texture_to_buffer encoder_id
                texture_id pd.buffer_id pd.buffer_stride pd.width pd.height),
              .backend (.command_encoder_finish encoder_id),
              .backend (.queue_submit pd.queue_id [encoder_id]),
              .backend (.buffer_map_async pd.buffer_id buffer_size),
              .backend (.device_poll pd.device_id),
              .backend (.buffer_get_mapped_range pd.buffer_id)]
          let buf_data :=
            (List.range buffer_size).map (b.mapped_byte pd.buffer_id)
          -- second `get_mut` before writing back and updating the image
          match alLookup st.wgpu_image_map external_id with
          | some pd2 =>
              let pd2' : PresentationData :=
                ⟨pd2.device_id, pd2.queue_id, buf_data, pd2.width,
                  pd2.height, pd2.buffer_id, pd2.buffer_stride,
                  pd2.image_desc, pd2.image_data⟩
              some
                (⟨st.sender, st.adapters, st.devices,
                    alInsert st.wgpu_image_map external_id pd2'⟩,
                  evs ++
                    [.txn (.update_image image_key pd2.image_desc
                        pd2.image_data),
                      .backend (.buffer_unmap pd.buffer_id)], .cont)
          | none =>
              some (st, evs ++ [.backend (.buffer_unmap pd.buffer_id)],
                .cont)
  | .UnmapBuffer device_id buffer_id array_buffer =>
      some (st,
        [.backend (.device_set_buffer_sub_data device_id buffer_id
          array_buffer)], .cont)

/-- `WGPU::run` on a finite queue of requests: process sequentially until
the queue is exhausted, an arm ends the loop (`return`), or a panic
(`none`).  Returns the final state and the concatenated event trace. -/
def WGPU.run (b : Backend) (st : WGPU) :
    List WebGPURequest → Option (WGPU × List Event)
  | [] => some (st, [])
  | r :: rs =>
      match WGPU.step b st r with
      | none => none
      | some (st1, evs, .stop) => some (st1, evs)
      | some (st1, evs, .cont) =>
          match WGPU.run b st1 rs with
          | none => none
          | some (st2, evs2) => some (st2, evs ++ evs2)

/-- `true` iff the loop processes every request of the list without
panicking and without any arm ending the loop. -/
def WGPU.runsToEnd (b : Backend) (st : WGPU) : List WebGPURequest → Bool
  | [] => true
  | r :: rs =>
      match WGPU.step b st r with
      | some (st1, _, .cont) => WGPU.runsToEnd b st1 rs
      | _ => false

/-- `WGPUExternalImages`: the read-side capability handed to the
compositor.  `images` is the shared presentation table, `locked_ids` the
per-id locked staging copies. -/
structure WGPUExternalImages where
  images : List (Nat × PresentationData)
  locked_ids : List (Nat × List Nat)
deriving DecidableEq

/-- `WGPUExternalImages::lock`: copy the bytes of the table entry (or an empty
placeholder) into `locked_ids` and return the locked byte view and the
dimensions.  The trailing `self.locked_ids.get(&id).unwrap()` is the
`Option`; `none` is its panic. -/
def WGPUExternalImages.lock (s : WGPUExternalImages) (id : Nat) :
    Option ((List Nat × Nat × Nat) × WGPUExternalImages) :=
  let wd :=
    match alLookup s.images id with
    | some present_data =>
        (present_data.width, present_data.height, present_data.data)
    | none => (0, 0, [])
  let locked := alInsert s.locked_ids id wd.2.2
  match alLookup locked id with
  | some d => some ((d, wd.1, wd.2.1), ⟨s.images, locked⟩)
  | none => none

/-- `WGPUExternalImages::unlock`: drop the locked staging copy. -/
def WGPUExternalImages.unlock (s : WGPUExternalImages) (id : Nat) :
    WGPUExternalImages :=
  ⟨s.images, alErase s.locked_ids id⟩

/-- Modelled from the words of the spec for comparison with the code
(`round_up(W*4, COPY_BYTES_PER_ROW_ALIGNMENT)`): the least multiple of the
alignment constant that is `≥ W*4`. -/
def stride_spec (width : Nat) : Nat :=
  ((width * 4 + (COPY_BYTES_PER_ROW_ALIGNMENT - 1)) /
      COPY_BYTES_PER_ROW_ALIGNMENT) *
    COPY_BYTES_PER_ROW_ALIGNMENT

/-- Requests whose arm touches the presentation-table entry of id `x`. -/
def targetsId (x : Nat) : WebGPURequest → Bool
  | .CreateSwapChain _ _ external_id _ _ _ => external_id = x
  | .DestroySwapChain external_id _ => external_id = x
  | .SwapChainPresent external_id _ _ _ => external_id = x
  | _ => false

/-- The two termination-protocol notifications of the `Exit` arm. -/
def isTermEvent : Event → Bool
  | .scriptMsgExit => true
  | .exitAck _ => true
  | _ => false

/-- The invariant of C9: every presentation-table entry has `queue_id` equal to
`device_id`. -/
def queueInv (st : WGPU) : Prop :=
  ∀ k pd, alLookup st.wgpu_image_map k = some pd → pd.queue_id = pd.device_id

/-- The invariant of C10 (with the `u32` range bound that makes the plain
product meaningful): every entry has a byte vector of length exactly
`buffer_stride * height`, and that product together with the raw height is
below `2^32`. -/
def sizeInv (st : WGPU) : Prop :=
  ∀ k pd, alLookup st.wgpu_image_map k = some pd →
    pd.data.length = pd.buffer_stride * pd.height ∧
    pd.buffer_stride * pd.height < 4294967296 ∧ pd.height < 4294967296

/-! ### Association-list laws -/

theorem alLookup_alErase_self {α : Type} (m : List (Nat × α)) (k : Nat) :
    alLookup (alErase m k) k = none := by
  induction m with
  | nil => rfl
  | cons p rest ih =>
      by_cases h : p.1 = k
      · simpa [alErase, h] using ih
      · simpa [alErase, alLookup, h] using ih

theorem alLookup_alErase_ne {α : Type} (m : List (Nat × α)) (k k' : Nat)
    (h : k' ≠ k) : alLookup (alErase m k) k' = alLookup m k' := by
  induction m with
  | nil => rfl
  | cons p rest ih =>
      by_cases hp : p.1 = k
      · have hk : ¬(p.1 = k') := by
          rw [hp]
          exact fun he => h he.symm
        have e1 : alErase (p :: rest) k = alErase rest k := by
          simp [alErase, hp]
        have e2 : alLookup (p :: rest) k' = alLookup rest k' := by
          simp [alLookup, hk]
        rw [e1, e2, ih]
      · have e1 : alErase (p :: rest) k = p :: alErase rest k := by
          simp [alErase, hp]
        rw [e1]
        by_cases hk : p.1 = k'
        · simp [alLookup, hk]
        · simp [alLookup, hk, ih]

theorem alLookup_alInsert_self {α : Type} (m : List (Nat × α)) (k : Nat)
    (v : α) : alLookup (alInsert m k v) k = some v := by
  simp [alInsert, alLookup]

theorem alLookup_alInsert_ne {α : Type} (m : List (Nat × α)) (k k' : Nat)
    (v : α) (h : k' ≠ k) :
    alLookup (alInsert m k v) k' = alLookup m k' := by
  have hk : k ≠ k' := fun he => h he.symm
  simp [alInsert, alLookup, hk, alLookup_alErase_ne m k k' h]

/-! ### Arithmetic of the row stride -/

theorem lor255 (x : Nat) : Nat.lor x 255 = 256 * (x / 256) + 255 := by
  have h256 : (256 : Nat) = 2 ^ 8 := by norm_num
  have hb : x % 2 ^ 8 < 2 ^ 8 := Nat.mod_lt _ (by norm_num)
  have h255 : (255 : Nat) < 2 ^ 8 := by norm_num
  apply Nat.eq_of_testBit_eq
  intro i
  have hR := Nat.testBit_mul_pow_two_add (x / 2 ^ 8) h255 i
  have hx : x = 2 ^ 8 * (x / 2 ^ 8) + x % 2 ^ 8 :=
    (Nat.div_add_mod x (2 ^ 8)).symm
  have hL := Nat.testBit_mul_pow_two_add (x / 2 ^ 8) hb i
  rw [h256, hR]
  have hxL : Nat.testBit x i =
      Nat.testBit (2 ^ 8 * (x / 2 ^ 8) + x % 2 ^ 8) i := by
    rw [← hx]
  have hlor : Nat.testBit (Nat.lor x 255) i =
      (Nat.testBit x i || Nat.testBit 255 i) := Nat.testBit_or x 255 i
  rw [hlor, hxL, hL]
  have h255b : Nat.testBit 255 i = decide (i < 8) := by
    have he : (255 : Nat) = 2 ^ 8 - 1 := by norm_num
    rw [he, Nat.testBit_two_pow_sub_one]
  rw [h255b]
  by_cases hi : i < 8
  · simp [hi]
  · simp [hi]

/-- Closed form of the computed stride: when `w*4 + 256` fits in `u32`,
the stride is the least multiple of 256 strictly greater than `w*4`. -/
theorem buffer_stride_eq (w : Nat) (hw : w * 4 + 256 < 4294967296) :
    buffer_stride w = (w * 4 / 256 + 1) * 256 := by
  have hdm : w * 4 / 256 * 256 ≤ w * 4 := Nat.div_mul_le_self (w * 4) 256
  have h1 : w * 4 % 4294967296 = w * 4 := Nat.mod_eq_of_lt (by omega)
  show (Nat.lor (w * 4 % 4294967296) (256 - 1) + 1) % 4294967296 = _
  rw [h1]
  have h2 : (256 : Nat) - 1 = 255 := by norm_num
  rw [h2, lor255]
  have h3 : 256 * (w * 4 / 256) + 255 + 1 = (w * 4 / 256 + 1) * 256 := by
    ring
  rw [h3]
  apply Nat.mod_eq_of_lt
  have : (w * 4 / 256 + 1) * 256 = w * 4 / 256 * 256 + 256 := by ring
  omega

theorem buffer_stride_bounds (w : Nat) (hw : w * 4 + 256 < 4294967296) :
    buffer_stride w % 256 = 0 ∧ w * 4 < buffer_stride w ∧
      buffer_stride w ≤ w * 4 + 256 := by
  rw [buffer_stride_eq w hw]
  have hdm : w * 4 / 256 * 256 ≤ w * 4 := Nat.div_mul_le_self (w * 4) 256
  have hmod := Nat.div_add_mod (w * 4) 256
  have hlt : w * 4 % 256 < 256 := Nat.mod_lt _ (by norm_num)
  refine ⟨Nat.mul_mod_left _ _, ?_, ?_⟩
  · have : (w * 4 / 256 + 1) * 256 = 256 * (w * 4 / 256) + 256 := by ring
    omega
  · have : (w * 4 / 256 + 1) * 256 = w * 4 / 256 * 256 + 256 := by ring
    omega


/-! ### Step and run lemmas -/

theorem step_cont_no_term (b : Backend) (st : WGPU) (r : WebGPURequest)
    (st1 : WGPU) (evs : List Event)
    (h : WGPU.step b st r = some (st1, evs, .cont)) :
    evs.filter isTermEvent = [] := by
  cases r <;> simp only [WGPU.step] at h
  all_goals try split at h
  all_goals try split at h
  all_goals try exact Option.noConfusion h
  all_goals simp only [Option.some.injEq, Prod.mk.injEq] at h
  all_goals obtain ⟨h1, h2, h3⟩ := h
  all_goals try cases h3
  all_goals subst h2
  all_goals rfl

theorem step_preserves_lookup (b : Backend) (st : WGPU) (x : Nat)
    (r : WebGPURequest) (st1 : WGPU) (evs : List Event) (c : LoopCtl)
    (hx : targetsId x r = false)
    (h : WGPU.step b st r = some (st1, evs, c)) :
    alLookup st1.wgpu_image_map x = alLookup st.wgpu_image_map x := by
  cases r <;> simp only [WGPU.step] at h
  all_goals try split at h
  all_goals try split at h
  all_goals try exact Option.noConfusion h
  all_goals simp only [Option.some.injEq, Prod.mk.injEq] at h
  all_goals obtain ⟨h1, h2, h3⟩ := h
  all_goals subst h1
  all_goals try rfl
  all_goals simp only [targetsId, decide_eq_false_iff_not] at hx
  all_goals first
    | exact alLookup_alInsert_ne _ _ _ _ (fun he => hx he.symm)
    | exact alLookup_alErase_ne _ _ _ (fun he => hx he.symm)

theorem run_append (b : Backend) (st : WGPU) (l1 l2 : List WebGPURequest)
    (h : WGPU.runsToEnd b st l1 = true) :
    ∃ st1 evs1, WGPU.run b st l1 = some (st1, evs1) ∧
      evs1.filter isTermEvent = [] ∧
      WGPU.run b st (l1 ++ l2) =
        (WGPU.run b st1 l2).map (fun p => (p.1, evs1 ++ p.2)) := by
  induction l1 generalizing st with
  | nil =>
      refine ⟨st, [], rfl, rfl, ?_⟩
      show WGPU.run b st l2 = _
      cases WGPU.run b st l2 with
      | none => rfl
      | some p => rfl
  | cons r rs ih =>
      simp only [WGPU.runsToEnd] at h
      cases hs : WGPU.step b st r with
      | none =>
          rw [hs] at h
          simp at h
      | some t =>
          obtain ⟨st1, evs, c⟩ := t
          rw [hs] at h
          cases c with
          | stop => simp at h
          | cont =>
              have h' : WGPU.runsToEnd b st1 rs = true := h
              obtain ⟨st2, evs2, hrun, hfilter, happ⟩ := ih st1 h'
              refine ⟨st2, evs ++ evs2, ?_, ?_, ?_⟩
              · show WGPU.run b st (r :: rs) = _
                simp only [WGPU.run, hs, hrun]
              · rw [List.filter_append, hfilter,
                  step_cont_no_term b st r st1 evs hs, List.append_nil]
              · have he : (r :: rs) ++ l2 = r :: (rs ++ l2) := rfl
                rw [he]
                show WGPU.run b st (r :: (rs ++ l2)) = _
                simp only [WGPU.run, hs, happ]
                cases WGPU.run b st2 l2 with
                | none => rfl
                | some p => simp
  
theorem run_preserves_lookup (b : Backend) (x : Nat)
    (l : List WebGPURequest) :
    ∀ st st2 evs, (∀ r ∈ l, targetsId x r = false) →
      WGPU.run b st l = some (st2, evs) →
      alLookup st2.wgpu_image_map x = alLookup st.wgpu_image_map x := by
  induction l with
  | nil =>
      intro st st2 evs _ h
      simp only [WGPU.run, Option.some.injEq, Prod.mk.injEq] at h
      obtain ⟨h1, _⟩ := h
      rw [← h1]
  | cons r rs ih =>
      intro st st2 evs hall h
      have hr : targetsId x r = false := hall r (by simp)
      have hrest : ∀ q ∈ rs, targetsId x q = false := fun q hq =>
        hall q (by simp [hq])
      simp only [WGPU.run] at h
      cases hs : WGPU.step b st r with
      | none =>
          rw [hs] at h
          exact Option.noConfusion h
      | some t =>
          obtain ⟨st1, evs1, c⟩ := t
          rw [hs] at h
          have hpres := step_preserves_lookup b st x r st1 evs1 c hr hs
          cases c with
          | stop =>
              have h2 : some (st1, evs1) = some (st2, evs) := h
              simp only [Option.some.injEq, Prod.mk.injEq] at h2
              obtain ⟨h1, _⟩ := h2
              rw [← h1]
              exact hpres
          | cont =>
              have h2 : (match WGPU.run b st1 rs with
                  | none => none
                  | some (st3, evs3) => some (st3, evs1 ++ evs3)) =
                  some (st2, evs) := h
              cases hr2 : WGPU.run b st1 rs with
              | none =>
                  rw [hr2] at h2
                  exact Option.noConfusion h2
              | some p =>
                  obtain ⟨st3, evs3⟩ := p
                  rw [hr2] at h2
                  simp only [Option.some.injEq, Prod.mk.injEq] at h2
                  obtain ⟨h1, _⟩ := h2
                  rw [← h1]
                  rw [ih st1 st3 evs3 hrest hr2, hpres]


theorem alLookup_alInsert_elim {α : Type} (m : List (Nat × α)) (k k' : Nat)
    (v w : α) (h : alLookup (alInsert m k v) k' = some w) :
    (k' = k ∧ w = v) ∨ (¬k' = k ∧ alLookup m k' = some w) := by
  by_cases hk : k' = k
  · subst hk
    rw [alLookup_alInsert_self] at h
    exact Or.inl ⟨rfl, (Option.some.inj h).symm⟩
  · exact Or.inr ⟨hk, by rw [← alLookup_alInsert_ne m k k' v hk]; exact h⟩

theorem alLookup_alErase_elim {α : Type} (m : List (Nat × α)) (x k : Nat)
    (w : α) (h : alLookup (alErase m x) k = some w) :
    alLookup m k = some w := by
  by_cases hk : k = x
  · subst hk
    rw [alLookup_alErase_self] at h
    exact Option.noConfusion h
  · rw [alLookup_alErase_ne m x k hk] at h
    exact h

theorem stagingLen_eq (w h : Nat) (h1 : buffer_stride w * h < 4294967296)
    (h2 : h < 4294967296) : stagingLen w h = buffer_stride w * h := by
  show (buffer_stride w * (h % 4294967296)) % 4294967296 = _
  rw [Nat.mod_eq_of_lt h2, Nat.mod_eq_of_lt h1]

/-- Range bound on a `CreateSwapChain` request under which the staging
length is the plain product `buffer_stride * height` (no `u32` wrap). -/
def createBound : WebGPURequest → Prop
  | .CreateSwapChain _ _ _ _ desc _ =>
      buffer_stride desc.width * desc.height < 4294967296 ∧
        desc.height < 4294967296
  | _ => True

theorem step_queueInv (b : Backend) (st : WGPU) (r : WebGPURequest)
    (st1 : WGPU) (evs : List Event) (c : LoopCtl) (hinv : queueInv st)
    (h : WGPU.step b st r = some (st1, evs, c)) : queueInv st1 := by
  cases r <;> simp only [WGPU.step] at h
  all_goals try split at h
  all_goals try split at h
  all_goals try exact Option.noConfusion h
  all_goals simp only [Option.some.injEq, Prod.mk.injEq] at h
  all_goals obtain ⟨h1, h2, h3⟩ := h
  all_goals subst h1
  all_goals try exact hinv
  all_goals intro k pd hl
  all_goals first
    | exact hinv k pd (alLookup_alErase_elim _ _ _ _ hl)
    | (rcases alLookup_alInsert_elim _ _ _ _ _ hl with ⟨hk, hv⟩ | ⟨hk, hl2⟩
       · subst hv
         rfl
       · exact hinv k pd hl2)
    | (rename_i x1 d heq1 x2 pd2 heq2
       rcases alLookup_alInsert_elim _ _ _ _ _ hl with ⟨hk, hv⟩ | ⟨hk, hl2⟩
       · subst hv
         exact hinv _ pd2 heq2
       · exact hinv k pd hl2)

theorem step_sizeInv (b : Backend) (st : WGPU) (r : WebGPURequest)
    (st1 : WGPU) (evs : List Event) (c : LoopCtl) (hb : createBound r)
    (hinv : sizeInv st)
    (h : WGPU.step b st r = some (st1, evs, c)) : sizeInv st1 := by
  cases r <;> simp only [WGPU.step] at h
  all_goals try split at h
  all_goals try split at h
  all_goals try exact Option.noConfusion h
  all_goals simp only [Option.some.injEq, Prod.mk.injEq] at h
  all_goals obtain ⟨h1, h2, h3⟩ := h
  all_goals subst h1
  all_goals try exact hinv
  all_goals intro k pd hl
  all_goals first
    | exact hinv k pd (alLookup_alErase_elim _ _ _ _ hl)
    | (rcases alLookup_alInsert_elim _ _ _ _ _ hl with ⟨hk, hv⟩ | ⟨hk, hl2⟩
       · subst hv
         first
           | (obtain ⟨hb1, hb2⟩ := hb
              refine ⟨?_, hb1, hb2⟩
              simp only [List.length_replicate]
              exact stagingLen_eq _ _ hb1 hb2)
           | (rename_i x1 d heq1 x2 pd2 heq2
              have hdp : d = pd2 := Option.some.inj (heq1.symm.trans heq2)
              subst hdp
              obtain ⟨hlen, hb1, hb2⟩ := hinv _ d heq2
              refine ⟨?_, hb1, hb2⟩
              simp only [List.length_map, List.length_range]
              show u32 (u32 d.height * d.buffer_stride) = _
              rw [show u32 d.height = d.height from Nat.mod_eq_of_lt hb2]
              show (d.height * d.buffer_stride) % 4294967296 = _
              rw [Nat.mul_comm d.height d.buffer_stride]
              exact Nat.mod_eq_of_lt hb1)
       · exact hinv k pd hl2)

theorem step_device_reply (b : Backend) (st : WGPU) (r : WebGPURequest)
    (st1 : WGPU) (evs : List Event) (c : LoopCtl)
    (h : WGPU.step b st r = some (st1, evs, c)) :
    ∀ s d q dsc, Event.reply s (.ok (.RequestDevice d q dsc)) ∈ evs →
      q = d := by
  cases r <;> simp only [WGPU.step] at h
  all_goals try split at h
  all_goals try split at h
  all_goals try exact Option.noConfusion h
  all_goals simp only [Option.some.injEq, Prod.mk.injEq] at h
  all_goals obtain ⟨h1, h2, h3⟩ := h
  all_goals subst h2
  all_goals intro s d q dsc hm
  all_goals simp at hm
  all_goals obtain ⟨hs, hd, hq, hdsc⟩ := hm
  all_goals rw [hd, hq]


theorem lockEval (images : List (Nat × PresentationData))
    (locked : List (Nat × List Nat)) (x : Nat) (pd : PresentationData)
    (h : alLookup images x = some pd) :
    WGPUExternalImages.lock ⟨images, locked⟩ x =
      some ((pd.data, pd.width, pd.height),
        ⟨images, alInsert locked x pd.data⟩) := by
  simp only [WGPUExternalImages.lock, h, alLookup_alInsert_self]

theorem lockEvalAbsent (images : List (Nat × PresentationData))
    (locked : List (Nat × List Nat)) (x : Nat)
    (h : alLookup images x = none) :
    WGPUExternalImages.lock ⟨images, locked⟩ x =
      some (([], 0, 0), ⟨images, alInsert locked x []⟩) := by
  simp only [WGPUExternalImages.lock, h, alLookup_alInsert_self]

/-- The `PresentationData` entry of id `x` right after a successful
`SwapChainPresent`: same fields, `data` replaced by the bytes read back
from the mapped staging buffer. -/
def presentData (b : Backend) (pd : PresentationData) : PresentationData :=
  ⟨pd.device_id, pd.queue_id,
    (List.range (u32 (u32 pd.height * pd.buffer_stride))).map
      (b.mapped_byte pd.buffer_id),
    pd.width, pd.height, pd.buffer_id, pd.buffer_stride, pd.image_desc,
    pd.image_data⟩

/-! ### Concrete fixtures for counterexamples and witnesses -/

/-- Backend oracle whose `pick_adapter` matches nothing. -/
def bNone : Backend :=
  ⟨fun _ _ => none, fun _ => "gpu0", fun _ _ d => d, fun _ i => i + 1, 42, 99⟩

/-- Backend oracle whose `pick_adapter` always yields adapter 7. -/
def bSome : Backend :=
  ⟨fun _ _ => some 7, fun _ => "gpu0", fun _ _ d => d, fun _ i => i + 1, 42, 99⟩

/-- Fresh actor state: no adapters, no devices, empty presentation table. -/
def st0 : WGPU := ⟨5, [], [], []⟩


/-! ### Claims -/

/-- C1: the claim says that for an external id absent from the
presentation table, `DestroySwapChain` is a no-op and never fatal.  The
code contradicts it: the `DestroySwapChain` arm unwraps
`HashMap::remove`, which panics on an absent id (`none` here); the
`SwapChainPresent` half of the claim does hold (zero events, loop
continues).  This theorem evaluates both arms at the failing input
(id 7 on an empty table). -/
theorem c1_destroy_absent_panics :
    WGPU.step bNone st0 (.DestroySwapChain 7 1) = none ∧
    WGPU.step bNone st0 (.SwapChainPresent 7 2 3 1) =
      some (st0, [], .cont) :=
  ⟨rfl, rfl⟩

/-- C2: the claim says only an `Exit` request ends the dispatch loop, and
in particular a `RequestAdapter` matching no backend adapter does not.
The code contradicts it: the no-match arm sends the error reply and then
executes `return`, ending the loop.  Evaluated at the failing input: a
no-match `RequestAdapter` followed by a `CreateContext`; the trace shows
the error reply, and the enqueued `CreateContext` is never consumed (its
`sendExternalImageId` event is absent). -/
theorem c2_failed_adapter_ends_loop :
    WGPU.run bNone st0 [.RequestAdapter 11 5 [], .CreateContext 12] =
      some (st0, [.backend (.pick_adapter 5),
        .reply 11 (.error "Failed to get webgpu adapter")]) ∧
    Event.sendExternalImageId 12 99 ∉
      [Event.backend (.pick_adapter 5),
        Event.reply 11 (.error "Failed to get webgpu adapter")] :=
  ⟨rfl, by decide⟩

/-- C3 (counterexample): the claim says the computed row stride equals
`round_up(W*4, COPY_BYTES_PER_ROW_ALIGNMENT)` — the least multiple of the
alignment that is `≥ W*4`.  At `W = 64` the computed
`((W*4) | (ALIGN-1)) + 1` gives 512, while the least multiple of 256 that
is `≥ 256` is 256: creating a swapchain with `W = 64` stores
`buffer_stride = 512 ≠ 256 = stride_spec 64`. -/
theorem c3_counterexample :
    (WGPU.step bNone st0 (.CreateSwapChain 1 2 7 3 ⟨64, 1, 0⟩ 4)).map
        (fun t => (alLookup t.1.wgpu_image_map 7).map
          (fun pd => pd.buffer_stride)) = some (some 512) ∧
    stride_spec 64 = 256 ∧ (512 : Nat) ≠ 256 :=
  ⟨rfl, rfl, by decide⟩

/-- C3 (amended): for a swapchain creation with width `W` and height `H`
(`W*4 + 256` in `u32` range), the computed row stride is the least
multiple of `COPY_BYTES_PER_ROW_ALIGNMENT` *strictly greater* than `W*4`
(equivalently `(W*4/256 + 1) * 256`) — a multiple of the alignment, with
`W*4 < stride ≤ W*4 + 256` — and the staging buffer created on the
backend has byte length `u32(stride * u32 H)`. -/
theorem c3_stride_and_buffer_size (b : Backend) (st : WGPU)
    (dev buf ext snd idata rst w h : Nat)
    (hw : w * 4 + 256 < 4294967296) :
    WGPU.step b st (.CreateSwapChain dev buf ext snd ⟨w, h, rst⟩ idata) =
      some (⟨st.sender, st.adapters, st.devices,
          alInsert st.wgpu_image_map ext
            ⟨dev, dev, List.replicate (stagingLen w h) 255, w, h, buf,
              buffer_stride w, ⟨w, h, rst⟩, idata⟩⟩,
        [.backend (.device_create_buffer dev buf ⟨stagingLen w h, 0⟩),
          .sendImageKey snd b.generate_image_key,
          .txn (.add_image b.generate_image_key ⟨w, h, rst⟩ idata)],
        .cont) ∧
      stagingLen w h = u32 (buffer_stride w * u32 h) ∧
      buffer_stride w = (w * 4 / 256 + 1) * 256 ∧
      buffer_stride w % COPY_BYTES_PER_ROW_ALIGNMENT = 0 ∧
      w * 4 < buffer_stride w ∧
      buffer_stride w ≤ w * 4 + COPY_BYTES_PER_ROW_ALIGNMENT := by
  obtain ⟨hm, hlt, hle⟩ := buffer_stride_bounds w hw
  exact ⟨rfl, rfl, buffer_stride_eq w hw, hm, hlt, hle⟩

/-- C3 (witness): the amended stride/size facts at `W = 3`, `H = 2`. -/
theorem c3_witness :
    WGPU.step bNone st0 (.CreateSwapChain 1 2 7 3 ⟨3, 2, 0⟩ 4) =
      some (⟨st0.sender, st0.adapters, st0.devices,
          alInsert st0.wgpu_image_map 7
            ⟨1, 1, List.replicate (stagingLen 3 2) 255, 3, 2, 2,
              buffer_stride 3, ⟨3, 2, 0⟩, 4⟩⟩,
        [.backend (.device_create_buffer 1 2 ⟨stagingLen 3 2, 0⟩),
          .sendImageKey 3 bNone.generate_image_key,
          .txn (.add_image bNone.generate_image_key ⟨3, 2, 0⟩ 4)],
        .cont) ∧
      stagingLen 3 2 = u32 (buffer_stride 3 * u32 2) ∧
      buffer_stride 3 = (3 * 4 / 256 + 1) * 256 ∧
      buffer_stride 3 % COPY_BYTES_PER_ROW_ALIGNMENT = 0 ∧
      3 * 4 < buffer_stride 3 ∧
      buffer_stride 3 ≤ 3 * 4 + COPY_BYTES_PER_ROW_ALIGNMENT :=
  c3_stride_and_buffer_size bNone st0 1 2 7 3 4 0 3 2 (by decide)

/-- C4: a `RequestAdapter` matching no backend adapter gets exactly one
error reply and the granted-adapter list is unchanged; a matching request
gets exactly one success reply carrying the adapter name, the new adapter
id and a channel handle that is the own sender of this same actor, and exactly
that adapter is appended to the list. -/
theorem c4_request_adapter_reply (b : Backend) (st : WGPU)
    (sender options : Nat) (ids : List Nat) :
    (b.pick_adapter options ids = none →
      WGPU.step b st (.RequestAdapter sender options ids) =
        some (st, [.backend (.pick_adapter options),
          .reply sender (.error "Failed to get webgpu adapter")], .stop)) ∧
    (∀ a, b.pick_adapter options ids = some a →
      WGPU.step b st (.RequestAdapter sender options ids) =
        some (⟨st.sender, st.adapters ++ [a], st.devices,
            st.wgpu_image_map⟩,
          [.backend (.pick_adapter options),
            .backend (.adapter_get_info a),
            .reply sender (.ok (.RequestAdapter (b.adapter_get_info a) a
              st.sender))], .cont)) := by
  constructor
  · intro hn
    simp only [WGPU.step, hn]
  · intro a ha
    simp only [WGPU.step, ha]

/-- C4 (witness): both branches at concrete backends: `bNone` matches
nothing, `bSome` yields adapter 7 with name "gpu0". -/
theorem c4_witness :
    WGPU.step bNone st0 (.RequestAdapter 3 5 []) =
      some (st0, [.backend (.pick_adapter 5),
        .reply 3 (.error "Failed to get webgpu adapter")], .stop) ∧
    WGPU.step bSome st0 (.RequestAdapter 3 5 []) =
      some (⟨5, [7], [], []⟩,
        [.backend (.pick_adapter 5), .backend (.adapter_get_info 7),
          .reply 3 (.ok (.RequestAdapter "gpu0" 7 5))], .cont) :=
  ⟨(c4_request_adapter_reply bNone st0 3 5 []).1 rfl,
    (c4_request_adapter_reply bSome st0 3 5 []).2 7 rfl⟩

set_option maxRecDepth 4000 in
/-- C5 (counterexample): the claim says zero width *or* zero height
yields a zero-length staging region.  For `W = 0, H = 1` the stride is
`(0 ||| 255) + 1 = 256`, so the staging region has length 256, not 0. -/
theorem c5_counterexample :
    (WGPU.step bNone st0 (.CreateSwapChain 1 2 7 3 ⟨0, 1, 0⟩ 4)).map
        (fun t => (alLookup t.1.wgpu_image_map 7).map
          (fun pd => pd.data.length)) = some (some 256) ∧
    (256 : Nat) ≠ 0 :=
  ⟨by decide, by decide⟩

/-- C5 (amended): swapchain creation with zero width or height is always
accepted (`some`, loop continues) and allocates a staging region of
length `stagingLen W H = u32(stride(W) * u32 H)`; that length is 0 when
the *height* is 0, but with zero width alone it is `u32(256 * u32 H)`
(256·H bytes for positive in-range H). -/
theorem c5_zero_dims (b : Backend) (st : WGPU)
    (dev buf ext snd idata rst w h : Nat) :
    (WGPU.step b st (.CreateSwapChain dev buf ext snd ⟨w, h, rst⟩
        idata)).map
        (fun t => (t.2.2, (alLookup t.1.wgpu_image_map ext).map
          (fun pd => pd.data.length))) =
      some (.cont, some (stagingLen w h)) ∧
    stagingLen w 0 = 0 ∧
    stagingLen 0 h = u32 (256 * u32 h) := by
  refine ⟨?_, rfl, rfl⟩
  show some (LoopCtl.cont,
    (alLookup (alInsert st.wgpu_image_map ext
        ⟨dev, dev, List.replicate (stagingLen w h) 255, w, h, buf,
          buffer_stride w, ⟨w, h, rst⟩, idata⟩) ext).map
      (fun pd => pd.data.length)) = _
  rw [alLookup_alInsert_self]
  show some (LoopCtl.cont,
    some (List.replicate (stagingLen w h) 255).length) = _
  rw [List.length_replicate]


/-- C6: round-trip — after a `SwapChainPresent` of an id `x` present in
the table, the bytes stored into the `PresentationData` of `x` (the read-back
of the mapped staging buffer) are exactly the bytes a subsequent `lock x`
returns, for any `lock` after a run of further requests none of which
presents, destroys or re-creates `x`. -/
theorem c6_present_lock_roundtrip (b : Backend) (st : WGPU) (x : Nat)
    (pd : PresentationData) (tex enc key : Nat)
    (hpd : alLookup st.wgpu_image_map x = some pd)
    (st1 : WGPU) (evs : List Event) (c : LoopCtl)
    (hstep : WGPU.step b st (.SwapChainPresent x tex enc key) =
      some (st1, evs, c))
    (reqs : List WebGPURequest)
    (hreqs : ∀ r ∈ reqs, targetsId x r = false)
    (st2 : WGPU) (evs2 : List Event)
    (hrun : WGPU.run b st1 reqs = some (st2, evs2))
    (locked : List (Nat × List Nat)) :
    alLookup st1.wgpu_image_map x = some (presentData b pd) ∧
    (WGPUExternalImages.lock ⟨st2.wgpu_image_map, locked⟩ x).map
        (fun p => p.1) =
      some ((presentData b pd).data, pd.width, pd.height) := by
  simp only [WGPU.step, hpd] at hstep
  have hstep2 : some ((⟨st.sender, st.adapters, st.devices,
      alInsert st.wgpu_image_map x (presentData b pd)⟩ : WGPU),
      ([.backend (.device_create_command_encoder pd.device_id enc),
        .backend (.command_encoder_copy_texture_to_buffer enc tex
          pd.buffer_id pd.buffer_stride pd.width pd.height),
        .backend (.command_encoder_finish enc),
        .backend (.queue_submit pd.queue_id [enc]),
        .backend (.buffer_map_async pd.buffer_id
          (u32 (u32 pd.height * pd.buffer_stride))),
        .backend (.device_poll pd.device_id),
        .backend (.buffer_get_mapped_range pd.buffer_id)] ++
        [.txn (.update_image key pd.image_desc pd.image_data),
          .backend (.buffer_unmap pd.buffer_id)] : List Event),
      LoopCtl.cont) = some (st1, evs, c) := hstep
  simp only [Option.some.injEq, Prod.mk.injEq] at hstep2
  obtain ⟨h1, _, _⟩ := hstep2
  have hl1 : alLookup st1.wgpu_image_map x = some (presentData b pd) := by
    rw [← h1]
    exact alLookup_alInsert_self _ _ _
  refine ⟨hl1, ?_⟩
  have hl2 : alLookup st2.wgpu_image_map x = some (presentData b pd) := by
    rw [run_preserves_lookup b x reqs st1 st2 evs2 hreqs hrun]
    exact hl1
  rw [lockEval st2.wgpu_image_map locked x (presentData b pd) hl2]
  rfl

/-- C6 (witness fixture): a one-entry table at id 7 before the present. -/
def pdW : PresentationData := ⟨1, 1, [9, 9], 1, 1, 2, 256, ⟨1, 1, 0⟩, 4⟩

/-- C6 (witness fixture): actor state whose table maps 7 to `pdW`. -/
def stW : WGPU := ⟨5, [], [], [(7, pdW)]⟩

/-- C6 (witness fixture): the state after presenting id 7 from `stW`. -/
def stWafter : WGPU := ⟨5, [], [], [(7, presentData bNone pdW)]⟩

/-- C6 (witness fixture): the events of that present. -/
def evsW : List Event :=
  [.backend (.device_create_command_encoder 1 31),
    .backend (.command_encoder_copy_texture_to_buffer 31 30 2 256 1 1),
    .backend (.command_encoder_finish 31),
    .backend (.queue_submit 1 [31]),
    .backend (.buffer_map_async 2 256),
    .backend (.device_poll 1),
    .backend (.buffer_get_mapped_range 2),
    .txn (.update_image 1 ⟨1, 1, 0⟩ 4),
    .backend (.buffer_unmap 2)]

set_option maxRecDepth 4000 in
/-- C6 (witness): presenting id 7 (a 1×1 swapchain with stride 256) and
then locking it returns exactly the 256 read-back bytes. -/
theorem c6_witness :
    alLookup stWafter.wgpu_image_map 7 = some (presentData bNone pdW) ∧
    (WGPUExternalImages.lock ⟨stWafter.wgpu_image_map, []⟩ 7).map
        (fun p => p.1) =
      some ((presentData bNone pdW).data, pdW.width, pdW.height) :=
  c6_present_lock_roundtrip bNone stW 7 pdW 30 31 1 rfl stWafter evsW
    .cont rfl [] (by simp) stWafter [] rfl []

/-- C7 (counterexample): the claim says every `Exit` request yields one
shutdown notification and one acknowledgement "regardless of whether
earlier operations failed".  If an earlier `RequestAdapter` matched no
adapter, the loop has already returned and an enqueued `Exit` is never
dequeued: the trace contains neither notification. -/
theorem c7_counterexample :
    WGPU.run bNone st0 [.RequestAdapter 11 5 [], .Exit 9] =
      some (st0, [.backend (.pick_adapter 5),
        .reply 11 (.error "Failed to get webgpu adapter")]) ∧
    Event.exitAck 9 ∉ [Event.backend (.pick_adapter 5),
      Event.reply 11 (.error "Failed to get webgpu adapter")] ∧
    Event.scriptMsgExit ∉ [Event.backend (.pick_adapter 5),
      Event.reply 11 (.error "Failed to get webgpu adapter")] :=
  ⟨rfl, by decide, by decide⟩

/-- C7 (amended): for every `Exit` request that the dispatch loop
reaches (every earlier request processed without ending the loop), the
actor emits exactly one upstream shutdown notification and exactly one
acknowledgement, with the shutdown strictly before the acknowledgement,
and processes none of the requests enqueued afterwards (the run result
does not depend on `post`). -/
theorem c7_exit_protocol (b : Backend) (st : WGPU)
    (pre : List WebGPURequest) (s : Nat) (post : List WebGPURequest)
    (h : WGPU.runsToEnd b st pre = true) :
    ∃ st1 evs1, WGPU.run b st pre = some (st1, evs1) ∧
      WGPU.run b st (pre ++ .Exit s :: post) =
        some (st1, evs1 ++ [Event.scriptMsgExit, Event.backend .drop_global,
          Event.exitAck s]) ∧
      (evs1 ++ [Event.scriptMsgExit, Event.backend .drop_global, Event.exitAck s]).filter
          isTermEvent = [.scriptMsgExit, .exitAck s] := by
  obtain ⟨st1, evs1, hrun, hfil, happ⟩ :=
    run_append b st pre (.Exit s :: post) h
  refine ⟨st1, evs1, hrun, ?_, ?_⟩
  · rw [happ]
    have hx : WGPU.run b st1 (.Exit s :: post) =
        some (st1, [.scriptMsgExit, .backend .drop_global, .exitAck s]) :=
      rfl
    rw [hx]
    rfl
  · rw [List.filter_append, hfil]
    rfl

/-- C7 (witness): a reached `Exit` after one `CreateContext`, with a
further `CreateContext` enqueued behind it that is never processed. -/
theorem c7_witness :
    ∃ st1 evs1,
      WGPU.run bNone st0 [.CreateContext 1] = some (st1, evs1) ∧
      WGPU.run bNone st0
          ([.CreateContext 1] ++ .Exit 9 :: [.CreateContext 2]) =
        some (st1, evs1 ++ [Event.scriptMsgExit, Event.backend .drop_global,
          Event.exitAck 9]) ∧
      (evs1 ++ [Event.scriptMsgExit, Event.backend .drop_global,
        Event.exitAck 9]).filter isTermEvent =
        [Event.scriptMsgExit, Event.exitAck 9] :=
  c7_exit_protocol bNone st0 [.CreateContext 1] 9 [.CreateContext 2] rfl

/-- C8: `lock` on an id with no table entry returns an empty byte view
and dimensions (0, 0), and does not fail (the result is `some`: the
trailing unwrap cannot panic). -/
theorem c8_lock_absent (images : List (Nat × PresentationData))
    (locked : List (Nat × List Nat)) (id : Nat)
    (h : alLookup images id = none) :
    WGPUExternalImages.lock ⟨images, locked⟩ id =
      some (([], 0, 0), ⟨images, alInsert locked id []⟩) :=
  lockEvalAbsent images locked id h

/-- C8 (witness): locking the never-created id 3 on an empty provider. -/
theorem c8_witness :
    WGPUExternalImages.lock ⟨[], []⟩ 3 =
      some (([], 0, 0), ⟨[], [(3, [])]⟩) :=
  c8_lock_absent [] [] 3 rfl

/-- C9: the queue id always equals the device id — every presentation
table entry keeps `queue_id = device_id` across any step, and every
successful `RequestDevice` reply carries equal queue and device ids. -/
theorem c9_queue_id_eq_device_id (b : Backend) (st : WGPU)
    (r : WebGPURequest) (st1 : WGPU) (evs : List Event) (c : LoopCtl)
    (hinv : queueInv st)
    (h : WGPU.step b st r = some (st1, evs, c)) :
    queueInv st1 ∧
      (∀ s d q dsc, Event.reply s (.ok (.RequestDevice d q dsc)) ∈ evs →
        q = d) :=
  ⟨step_queueInv b st r st1 evs c hinv h,
    step_device_reply b st r st1 evs c h⟩

/-- C9 (witness): a `RequestDevice` step from the fresh state: the new
state keeps the invariant and the reply carries `queue_id = device_id
= 6`. -/
theorem c9_witness :
    queueInv (⟨5, [], [6], []⟩ : WGPU) ∧
      (∀ s d q dsc, Event.reply s (.ok (.RequestDevice d q dsc)) ∈
          [Event.backend (.adapter_request_device 4 5 6),
            Event.reply 3 (.ok (.RequestDevice 6 6 5))] → q = d) :=
  c9_queue_id_eq_device_id bNone st0 (.RequestDevice 3 4 5 6)
    ⟨5, [], [6], []⟩
    [Event.backend (.adapter_request_device 4 5 6),
      Event.reply 3 (.ok (.RequestDevice 6 6 5))] .cont
    (fun _ _ hl => Option.noConfusion hl) rfl

/-- C10: every presentation-table entry has a byte vector of length exactly
`buffer_stride * height` (with the `u32` range bound carried in the
invariant): it holds after any step from a state satisfying it — in
particular at creation, where the entry is seeded with bytes of value 255
of exactly that length, and across every `SwapChainPresent`. -/
theorem c10_data_length_invariant (b : Backend) (st : WGPU)
    (r : WebGPURequest) (st1 : WGPU) (evs : List Event) (c : LoopCtl)
    (hb : createBound r) (hinv : sizeInv st)
    (h : WGPU.step b st r = some (st1, evs, c)) :
    sizeInv st1 ∧
      (∀ dev buf ext snd desc idata,
        r = .CreateSwapChain dev buf ext snd desc idata →
        alLookup st1.wgpu_image_map ext = some
          ⟨dev, dev,
            List.replicate (buffer_stride desc.width * desc.height) 255,
            desc.width, desc.height, buf, buffer_stride desc.width, desc,
            idata⟩) := by
  refine ⟨step_sizeInv b st r st1 evs c hb hinv h, ?_⟩
  intro dev buf ext snd desc idata hr
  subst hr
  have h2 : some ((⟨st.sender, st.adapters, st.devices,
      alInsert st.wgpu_image_map ext
        ⟨dev, dev, List.replicate (stagingLen desc.width desc.height) 255,
          desc.width, desc.height, buf, buffer_stride desc.width, desc,
          idata⟩⟩ : WGPU),
      ([.backend (.device_create_buffer dev buf
          ⟨stagingLen desc.width desc.height, 0⟩),
        .sendImageKey snd b.generate_image_key,
        .txn (.add_image b.generate_image_key desc idata)] : List Event),
      LoopCtl.cont) = some (st1, evs, c) := h
  simp only [Option.some.injEq, Prod.mk.injEq] at h2
  obtain ⟨h1, _, _⟩ := h2
  have hlen : stagingLen desc.width desc.height =
      buffer_stride desc.width * desc.height :=
    stagingLen_eq _ _ hb.1 hb.2
  rw [← h1]
  show alLookup (alInsert st.wgpu_image_map ext
      ⟨dev, dev, List.replicate (stagingLen desc.width desc.height) 255,
        desc.width, desc.height, buf, buffer_stride desc.width, desc,
        idata⟩) ext = _
  rw [alLookup_alInsert_self, ← hlen]

/-- C10 (witness fixture): the table entry created for a 1×1 swapchain. -/
def pdC : PresentationData :=
  ⟨1, 1, List.replicate 256 255, 1, 1, 2, 256, ⟨1, 1, 0⟩, 4⟩

/-- C10 (witness fixture): the state after that creation. -/
def stC : WGPU := ⟨5, [], [], [(7, pdC)]⟩

set_option maxRecDepth 4000 in
/-- C10 (witness): a 1×1 creation from the fresh state keeps the length
invariant and seeds 256 = stride·height bytes of value 255. -/
theorem c10_witness :
    sizeInv stC ∧
      (∀ dev buf ext snd desc idata,
        (WebGPURequest.CreateSwapChain 1 2 7 3 ⟨1, 1, 0⟩ 4) =
          .CreateSwapChain dev buf ext snd desc idata →
        alLookup stC.wgpu_image_map ext = some
          ⟨dev, dev,
            List.replicate (buffer_stride desc.width * desc.height) 255,
            desc.width, desc.height, buf, buffer_stride desc.width, desc,
            idata⟩) :=
  c10_data_length_invariant bNone st0 (.CreateSwapChain 1 2 7 3 ⟨1, 1, 0⟩ 4)
    stC
    [.backend (.device_create_buffer 1 2 ⟨256, 0⟩), .sendImageKey 3 42,
      .txn (.add_image 42 ⟨1, 1, 0⟩ 4)] .cont
    ⟨by decide, by decide⟩
    (fun _ _ hl => Option.noConfusion hl) rfl

end WebGPUActor
